import Mathlib

/-!
Verification of the weather-app core: shallow embedding of the cache,
configuration resolution, fetch clients' status mapping and payload
parsing, and location validation, translated from
`src/weather_app` (Python), with theorems settling the frozen claims.

Numeric values (JSON numbers, Python floats/ints, timestamps) are
modelled as rationals; Python floats are idealised as exact rationals.
Strings are ASCII-idealised where Python's `str.lower`/`str.upper`
have Unicode behaviour.
-/

namespace WeatherApp

/-- JSON values as produced by `json.load` / consumed by `json.dump`.
Numbers (int and float alike) are rationals. -/
inductive Json where
  | null
  | bool (b : Bool)
  | num (q : ℚ)
  | str (s : String)
  | arr (elems : List Json)
  | obj (fields : List (String × Json))

/-- Python `dict[k]` / `dict.get(k)` on a JSON object's field list.
`json.load` keeps the last of duplicate keys, so the lookup takes the
last occurrence. -/
def dictGet : List (String × Json) → String → Option Json
  | [], _ => none
  | kv :: rest, k =>
    match dictGet rest k with
    | some v => some v
    | none => if kv.1 = k then some kv.2 else none

def Json.asObj : Json → Option (List (String × Json))
  | .obj d => some d
  | _ => none

def Json.asNum : Json → Option ℚ
  | .num q => some q
  | _ => none

def Json.asStr : Json → Option String
  | .str s => some s
  | _ => none

def Json.asArr : Json → Option (List Json)
  | .arr xs => some xs
  | _ => none

/-- A JSON value that is either `null` or a number, decoded to the
optional rational it denotes (used for `Optional[float]`/`Optional[int]`
fields of the dataclass). -/
def Json.asOptNum : Json → Option (Option ℚ)
  | .null => some none
  | .num q => some (some q)
  | _ => none

/-- The `WeatherData` dataclass of `models/weather_data.py`: the canonical
weather record. Field names and order follow the dataclass; `Optional`
fields are `Option`; all numerics are rationals. -/
structure WeatherData where
  city : String
  units : String
  status : String
  detailed_status : String
  temperature : ℚ
  feels_like : ℚ
  humidity : ℚ
  wind_speed : ℚ
  wind_direction_deg : Option ℚ
  precipitation_probability : Option ℚ
  clouds : Option ℚ
  visibility_distance : Option ℚ
  pressure_hpa : ℚ
  icon_code : Option ℚ := none
deriving DecidableEq

/-- Encoding of an optional numeric field: Python `None` serialises to
JSON `null`. -/
def optNumJson : Option ℚ → Json
  | none => .null
  | some q => .num q

/-- `weather_data.__dict__` as serialised by `_save_cache_to_disk`
(`json.dump` of the instance dictionary): every field by name, in
dataclass declaration order. -/
def WeatherData.toDict (w : WeatherData) : List (String × Json) :=
  [("city", .str w.city),
   ("units", .str w.units),
   ("status", .str w.status),
   ("detailed_status", .str w.detailed_status),
   ("temperature", .num w.temperature),
   ("feels_like", .num w.feels_like),
   ("humidity", .num w.humidity),
   ("wind_speed", .num w.wind_speed),
   ("wind_direction_deg", optNumJson w.wind_direction_deg),
   ("precipitation_probability", optNumJson w.precipitation_probability),
   ("clouds", optNumJson w.clouds),
   ("visibility_distance", optNumJson w.visibility_distance),
   ("pressure_hpa", .num w.pressure_hpa),
   ("icon_code", optNumJson w.icon_code)]

/-- The names the `WeatherData` constructor accepts as keyword arguments. -/
def weatherDataFieldNames : List String :=
  ["city", "units", "status", "detailed_status", "temperature", "feels_like",
   "humidity", "wind_speed", "wind_direction_deg", "precipitation_probability",
   "clouds", "visibility_distance", "pressure_hpa", "icon_code"]

def decStr (d : List (String × Json)) (k : String) : Option String :=
  (dictGet d k).bind Json.asStr

def decNum (d : List (String × Json)) (k : String) : Option ℚ :=
  (dictGet d k).bind Json.asNum

def decOptNum (d : List (String × Json)) (k : String) : Option (Option ℚ) :=
  (dictGet d k).bind Json.asOptNum

/-- `WeatherData(**weather_dict)` as performed by `_load_cache_from_disk`:
succeeds only when every key is a known field name and every required
field is present (`icon_code` defaults to `None`); an unknown or missing
key raises `TypeError` in Python, modelled as `none`. Values are decoded
at their declared shapes (the dataclass itself does not type-check
values; persisted dictionaries are well-shaped, see
`WeatherData.ofDict_toDict`). -/
def WeatherData.ofDict (d : List (String × Json)) : Option WeatherData :=
  if d.all (fun kv => weatherDataFieldNames.contains kv.1) then
    match decStr d "city", decStr d "units", decStr d "status",
          decStr d "detailed_status", decNum d "temperature",
          decNum d "feels_like", decNum d "humidity", decNum d "wind_speed",
          decOptNum d "wind_direction_deg",
          decOptNum d "precipitation_probability", decOptNum d "clouds",
          decOptNum d "visibility_distance", decNum d "pressure_hpa",
          (match dictGet d "icon_code" with
           | none => some none
           | some v => v.asOptNum) with
    | some city, some units, some status, some ds, some t, some fl, some h,
      some ws, some wd, some pp, some cl, some vd, some ph, some ic =>
        some ⟨city, units, status, ds, t, fl, h, ws, wd, pp, cl, vd, ph, ic⟩
    | _, _, _, _, _, _, _, _, _, _, _, _, _, _ => none
  else none

/-- `_save_cache_to_disk`: the JSON value written to the cache file, a
top-level object mapping each cache key to the flattened record
(`json.dump`/`json.load` are taken as inverse on the JSON value tree). -/
def saveCacheData (entries : List (String × WeatherData)) : Json :=
  .obj (entries.map fun kv => (kv.1, .obj kv.2.toDict))

/-- The body of `_load_cache_from_disk` once the file has parsed as JSON:
`cache_data.items()` over the top-level object, `WeatherData(**d)` per
entry. A non-object top level (`AttributeError`) or an entry that is not
a well-shaped object (`TypeError`) is an uncaught exception, modelled as
`Except.error`. -/
def loadCacheData : Json → Except Unit (List (String × WeatherData))
  | .obj kvs =>
    kvs.mapM fun kv =>
      match kv.2 with
      | .obj d =>
        match WeatherData.ofDict d with
        | some w => .ok (kv.1, w)
        | none => .error ()
      | _ => .error ()
  | _ => .error ()
/-- The on-disk cache file as `_load_cache_from_disk` encounters it.
`missing`: the path does not exist; `unreadable`: opening/reading raises
`IOError`/`PermissionError`; `invalidJson`: `json.load` raises
`JSONDecodeError`; `json`: the parsed JSON value. -/
inductive CacheFile where
  | missing
  | unreadable
  | invalidJson
  | json (j : Json)

/-- `_load_cache_from_disk` (identical in `WeatherService` and
`AsyncWeatherService`): a missing file is a silent cold start; the
`except` clause catches exactly `json.JSONDecodeError`, `IOError` and
`PermissionError` (logged, cache left empty); any other exception while
rebuilding the entries propagates out of `__init__`. -/
def loadCacheFromDisk : CacheFile → Except Unit (List (String × WeatherData))
  | .missing => .ok []
  | .unreadable => .ok []
  | .invalidJson => .ok []
  | .json j => loadCacheData j

/-- An entry of the `cachetools.TTLCache`: value plus insertion time. -/
structure CacheEntry where
  key : String
  val : WeatherData
  time : ℚ
deriving DecidableEq

/-- The `TTLCache(maxsize=100, ttl=config.cache_ttl)` held by both
services; `entries` is kept in insertion order (oldest first), matching
the cache's internal link order used by `popitem`. -/
structure TTLCacheState where
  maxsize : ℕ
  ttl : ℚ
  entries : List CacheEntry
deriving DecidableEq

/-- `cachetools` liveness: an entry inserted at time `t` answers lookups
while `now < t + ttl`; at `now ≥ t + ttl` it is expired (the spec's
`now - insertion_time >= ttl_seconds`). -/
def CacheEntry.live (ttl : ℚ) (now : ℚ) (e : CacheEntry) : Bool :=
  now < e.time + ttl

/-- `cache_key in self.cache` / `self.cache[cache_key]`: present and not
expired at read time (expiry is lazy; the entry may still be resident). -/
def TTLCacheState.lookup (c : TTLCacheState) (now : ℚ) (k : String) :
    Option WeatherData :=
  match c.entries.find? (fun e => e.key = k) with
  | some e => if e.live c.ttl now then some e.val else none
  | none => none

/-- `self.cache[key] = value` (`TTLCache.__setitem__`): first `expire(time)`
removes every expired entry; an existing key is replaced in place with a
refreshed expiry clock (moved to newest position); a new key first evicts
oldest-inserted entries while the cache would exceed `maxsize` (for
`maxsize ≥ 1` exactly `len + 1 - maxsize` of them, here written as a
`drop`), then is appended. -/
def TTLCacheState.insert (c : TTLCacheState) (now : ℚ) (k : String)
    (v : WeatherData) : TTLCacheState :=
  if (c.entries.filter (CacheEntry.live c.ttl now)).any (fun e => e.key = k) then
    ⟨c.maxsize, c.ttl,
      (c.entries.filter (CacheEntry.live c.ttl now)).filter
        (fun e => ¬ e.key = k) ++ [⟨k, v, now⟩]⟩
  else
    ⟨c.maxsize, c.ttl,
      (c.entries.filter (CacheEntry.live c.ttl now)).drop
        ((c.entries.filter (CacheEntry.live c.ttl now)).length + 1
          - c.maxsize) ++ [⟨k, v, now⟩]⟩

/-- A fresh `TTLCache(maxsize=100, ttl=config.cache_ttl)`. -/
def TTLCacheState.empty (maxsize : ℕ) (ttl : ℚ) : TTLCacheState :=
  ⟨maxsize, ttl, []⟩

/-- `self.cache.items()` at save time: iteration over a `TTLCache` yields
only non-expired entries. -/
def TTLCacheState.items (c : TTLCacheState) (now : ℚ) :
    List (String × WeatherData) :=
  (c.entries.filter (CacheEntry.live c.ttl now)).map fun e => (e.key, e.val)

/-- A sequence of `insert` operations (time, key, value) applied in order. -/
def TTLCacheState.insertMany (c : TTLCacheState)
    (ops : List (ℚ × String × WeatherData)) : TTLCacheState :=
  ops.foldl (fun acc op => acc.insert op.1 op.2.1 op.2.2) c

/-- `_save_cache_to_disk`: the JSON value written for the current cache
contents (all currently non-expired entries). -/
def TTLCacheState.saveToDisk (c : TTLCacheState) (now : ℚ) : Json :=
  saveCacheData (c.items now)

/-- The cache key both `WeatherService.get_weather` and
`AsyncWeatherService.get_weather` compute: the f-string
`f"{location}:{units}"` over the verbatim arguments — no trimming, case
folding or other normalisation. -/
def cacheKey (location units : String) : String :=
  location ++ ":" ++ units

/-- Observable fetch-path state of one service instance: its cache and
the number of network requests performed so far. -/
structure ServiceState where
  cache : TTLCacheState
  fetchCount : ℕ
deriving DecidableEq

/-- `get_weather(location, units)` (the caching logic shared verbatim by
the sync and async services): compute the cache key, return a live cached
record without network activity, otherwise fetch, cache and return. The
provider is abstracted as a total time-indexed oracle
`fetch : now → location → units → record` (the success path; typed
errors propagate before any cache write and are settled separately). -/
def getWeather (fetch : ℚ → String → String → WeatherData)
    (now : ℚ) (location units : String) (st : ServiceState) :
    WeatherData × ServiceState :=
  let key := cacheKey location units
  match st.cache.lookup now key with
  | some w => (w, st)
  | none =>
    let w := fetch now location units
    (w, ⟨st.cache.insert now key w, st.fetchCount + 1⟩)

/-- The exception classes of `weather_app/exceptions.py`. -/
inductive ExcType where
  | weatherAppError
  | configurationError
  | apiKeyError
  | weatherServiceError
  | locationNotFoundError
  | apiRequestError
  | networkError
  | rateLimitError
  | invalidLocationError
  | dataParsingError
  | locationServiceError
  | geocodingError
deriving DecidableEq

/-- The superclass chain of each exception class (itself first), read off
the class definitions in `exceptions.py`. -/
def ExcType.ancestors : ExcType → List ExcType
  | .weatherAppError => [.weatherAppError]
  | .configurationError => [.configurationError, .weatherAppError]
  | .apiKeyError => [.apiKeyError, .configurationError, .weatherAppError]
  | .weatherServiceError => [.weatherServiceError, .weatherAppError]
  | .locationNotFoundError =>
    [.locationNotFoundError, .weatherServiceError, .weatherAppError]
  | .apiRequestError => [.apiRequestError, .weatherServiceError, .weatherAppError]
  | .networkError =>
    [.networkError, .apiRequestError, .weatherServiceError, .weatherAppError]
  | .rateLimitError =>
    [.rateLimitError, .apiRequestError, .weatherServiceError, .weatherAppError]
  | .invalidLocationError => [.invalidLocationError, .weatherAppError]
  | .dataParsingError =>
    [.dataParsingError, .weatherServiceError, .weatherAppError]
  | .locationServiceError => [.locationServiceError, .weatherAppError]
  | .geocodingError =>
    [.geocodingError, .locationServiceError, .weatherAppError]

/-- Python `issubclass` on the hierarchy of `exceptions.py`. -/
def ExcType.isSubclassOf (a b : ExcType) : Bool :=
  a.ancestors.contains b

/-- The typed errors `AsyncWeatherService._fetch_weather_data` /
`get_weather` can raise, one constructor per raise site. -/
inductive FetchError where
  | locationNotFound
  | invalidApiKey
  | rateLimited
  | requestFailed (status : ℕ)
  | networkTimeout
  | networkConnection
  | dataParsing
deriving DecidableEq

/-- The Python exception class each raise site instantiates:
404 → `LocationNotFoundError`; 401 → `APIRequestError` ("Invalid API
key..."); 429 → `RateLimitError`; other non-200 → `APIRequestError`
("API request failed with status ..."); timeout and connection failure
→ `NetworkError`; malformed payload → `DataParsingError`. -/
def FetchError.excType : FetchError → ExcType
  | .locationNotFound => .locationNotFoundError
  | .invalidApiKey => .apiRequestError
  | .rateLimited => .rateLimitError
  | .requestFailed _ => .apiRequestError
  | .networkTimeout => .networkError
  | .networkConnection => .networkError
  | .dataParsing => .dataParsingError

/-- Python `str.capitalize()` (ASCII): first character uppercased, the
rest lowercased. -/
def pyCapitalize (s : String) : String :=
  match s.data with
  | [] => ""
  | c :: rest => String.mk (c.toUpper :: rest.map Char.toLower)

/-- Python `round` half-to-even on an exact rational (floats idealised
as exact rationals). -/
def pyRoundInt (q : ℚ) : ℤ :=
  if q - ⌊q⌋ < 1/2 then ⌊q⌋
  else if q - ⌊q⌋ > 1/2 then ⌊q⌋ + 1
  else if Even ⌊q⌋ then ⌊q⌋ else ⌊q⌋ + 1

/-- Python `round(q, ndigits)`. -/
def pyRound (q : ℚ) (ndigits : ℕ) : ℚ :=
  (pyRoundInt (q * 10 ^ ndigits) : ℚ) / 10 ^ ndigits

/-- `d.get(k, 0)` followed by a numeric use (`round`): the present value
must be numeric, an absent key yields `0`. -/
def getNumD (d : List (String × Json)) (k : String) : Option ℚ :=
  ((dictGet d k).getD (.num 0)).asNum

/-- `d.get(k)` stored into an `Optional` field: an absent key or JSON
`null` is `None`; a present value is decoded as a number. -/
def getOptNum (d : List (String × Json)) (k : String) : Option (Option ℚ) :=
  match dictGet d k with
  | none => some none
  | some v => v.asOptNum

/-- `AsyncWeatherService._parse_weather_data`: the `try` body in field
order. A missing key (`KeyError`), empty `weather` array (`IndexError`)
or non-numeric/ill-shaped value (`TypeError`) raises, caught and
re-raised as `DataParsingError`. `wind` and `clouds` fall back to `{}`
when absent; missing `speed` and `all` default to `0`; missing `deg`,
`pop` and `visibility` become `None`. (Values are decoded at the shapes
the provider contract gives them; a handful of ill-typed payloads that
Python would let through untyped or fail on with `AttributeError` are
uniformly treated as parse failures here — no claim touches them.) -/
def parseWeatherData (location : String) (j : Json) (units : String) :
    Except FetchError WeatherData :=
  let r : Option WeatherData :=
    match j.asObj with
    | none => none
    | some data =>
      match (((dictGet data "weather").bind Json.asArr).bind List.head?).bind
              Json.asObj,
            (dictGet data "main").bind Json.asObj with
      | some weather, some main =>
        let wind := ((dictGet data "wind").bind Json.asObj).getD []
        let clouds := ((dictGet data "clouds").bind Json.asObj).getD []
        match decStr weather "main", decStr weather "description",
              decNum main "temp", decNum main "feels_like",
              decNum main "humidity", decNum main "pressure",
              decNum weather "id", getNumD wind "speed", getOptNum wind "deg",
              getOptNum data "pop", getNumD clouds "all",
              getOptNum data "visibility" with
        | some status, some description, some temp, some feelsLike,
          some humidity, some pressure, some weatherId, some windSpeed,
          some windDeg, some pop, some cloudsAll, some visibility =>
          some { city := location
                 units := units
                 status := status
                 detailed_status := pyCapitalize description
                 temperature := pyRound temp 1
                 feels_like := pyRound feelsLike 1
                 humidity := humidity
                 wind_speed := pyRound windSpeed 2
                 wind_direction_deg := windDeg
                 precipitation_probability := pop
                 clouds := some cloudsAll
                 visibility_distance := visibility
                 pressure_hpa := pressure
                 icon_code := some weatherId }
        | _, _, _, _, _, _, _, _, _, _, _, _ => none
      | _, _ => none
  match r with
  | some w => .ok w
  | none => .error .dataParsing

/-- The outcome of the aiohttp request inside
`AsyncWeatherService._fetch_weather_data`: a provider response with a
status code and JSON body, an `asyncio.TimeoutError`, or an
`aiohttp.ClientError`/`ConnectionError`. -/
inductive HttpResult where
  | response (status : ℕ) (body : Json)
  | timeout
  | connectionError

/-- The status-code mapping of `AsyncWeatherService._fetch_weather_data`,
in source order: 404, 401, 429, then any status other than 200 raise;
a 200 body is parsed (a parse failure raises `DataParsingError`);
`asyncio.TimeoutError` and connection errors raise `NetworkError`. -/
def fetchWeatherData (location units : String) (r : HttpResult) :
    Except FetchError WeatherData :=
  match r with
  | .timeout => .error .networkTimeout
  | .connectionError => .error .networkConnection
  | .response status body =>
    if status = 404 then .error .locationNotFound
    else if status = 401 then .error .invalidApiKey
    else if status = 429 then .error .rateLimited
    else if status ≠ 200 then .error (.requestFailed status)
    else parseWeatherData location body units

/-- The outcome of the PyOWM call inside the synchronous
`WeatherService.get_weather`, at the granularity of the library's
exception types (PyOWM itself maps HTTP statuses out of scope of the
repository's sources). -/
inductive PyowmOutcome where
  | success
  | notFoundError
  | otherPyowmError

/-- The `except` clauses of `WeatherService.get_weather`: PyOWM's
`NotFoundError` becomes `LocationNotFoundError`; every other
`PyOWMError` — including rate limiting and timeouts — becomes the
generic `APIRequestError`. -/
def syncFetchErrorClass : PyowmOutcome → Option ExcType
  | .success => none
  | .notFoundError => some .locationNotFoundError
  | .otherPyowmError => some .apiRequestError

/-- `Config._parse_bool`, the `mode="before"` validator on `USE_ASYNC`
and `CACHE_PERSIST`: a `bool` passes through; a `str` is true exactly
when its lowercase form is `"true"`; anything else is Python
truthiness. -/
inductive PyBoolInput where
  | bool (b : Bool)
  | str (s : String)
  | other (truthy : Bool)

/-- Python `str.lower()` (ASCII). -/
def pyLower (s : String) : String :=
  String.mk (s.data.map Char.toLower)

def parseBool : PyBoolInput → Bool
  | .bool b => b
  | .str s => pyLower s = "true"
  | .other t => t

/-- The values a single setting takes in the four configuration sources
of the claim: built-in default, `.weather.yaml` file, process
environment, CLI override (`none` = the source does not define it). -/
structure SettingSources (α : Type) where
  dflt : α
  file : Option α
  env : Option α
  cli : Option α

/-- The value the code resolves for a setting: `Config` is a
`pydantic_settings.BaseSettings` (pydantic v2), whose source-customising
hook is `settings_customise_sources`; the class's `customise_sources`
classmethod is never invoked by the library, so the `.weather.yaml` /
`.weather.env` sources it would install are dead code and the value
comes from the default v2 chain (init kwargs — unused here — then
environment variables, then field defaults). `apply_cli_overrides` then
overwrites the field whenever the CLI argument is present and not
`None`. -/
def resolveSetting {α : Type} (s : SettingSources α) : α :=
  let constructed := match s.env with
    | some v => v
    | none => s.dflt
  match s.cli with
  | some v => v
  | none => constructed

/-- Modelled from the spec: resolution at the precedence
CLI > environment > configuration file > built-in default. -/
def specResolveSetting {α : Type} (s : SettingSources α) : α :=
  match s.cli with
  | some v => v
  | none => match s.env with
    | some v => v
    | none => match s.file with
      | some v => v
      | none => s.dflt

/-- A provider payload of the shape the OpenWeatherMap endpoint returns,
with every optional numeric field explicitly present or absent:
`wind.speed`, `wind.deg`, top-level `pop`, `clouds.all` and top-level
`visibility` may each be omitted. -/
structure OwmPayload where
  weatherMain : String
  weatherDescription : String
  weatherId : ℚ
  temp : ℚ
  feelsLike : ℚ
  humidity : ℚ
  pressure : ℚ
  windSpeed : Option ℚ
  windDeg : Option ℚ
  pop : Option ℚ
  cloudsAll : Option ℚ
  visibility : Option ℚ

/-- A JSON object field present only when the value is. -/
def optField (k : String) : Option ℚ → List (String × Json)
  | none => []
  | some q => [(k, .num q)]

/-- The JSON encoding of an `OwmPayload`: nested `weather`/`main`/`wind`/
`clouds` objects with each optional field present exactly when the
payload holds a value for it. -/
def OwmPayload.toJson (p : OwmPayload) : Json :=
  .obj ([("weather", .arr [.obj [("main", .str p.weatherMain),
                                 ("description", .str p.weatherDescription),
                                 ("id", .num p.weatherId)]]),
         ("main", .obj [("temp", .num p.temp),
                        ("feels_like", .num p.feelsLike),
                        ("humidity", .num p.humidity),
                        ("pressure", .num p.pressure)]),
         ("wind", .obj (optField "speed" p.windSpeed ++
                        optField "deg" p.windDeg)),
         ("clouds", .obj (optField "all" p.cloudsAll))]
        ++ optField "pop" p.pop
        ++ optField "visibility" p.visibility)

/-- The record `_parse_weather_data` actually produces from an
`OwmPayload` (see `claim_C1_...`): omitted `wind.speed` and `clouds.all`
become the value `0`; omitted `deg`, `pop` and `visibility` stay
absent. -/
def OwmPayload.parsedRecord (p : OwmPayload) (location units : String) :
    WeatherData :=
  { city := location
    units := units
    status := p.weatherMain
    detailed_status := pyCapitalize p.weatherDescription
    temperature := pyRound p.temp 1
    feels_like := pyRound p.feelsLike 1
    humidity := p.humidity
    wind_speed := pyRound (p.windSpeed.getD 0) 2
    wind_direction_deg := p.windDeg
    precipitation_probability := p.pop
    clouds := some (p.cloudsAll.getD 0)
    visibility_distance := p.visibility
    pressure_hpa := p.pressure
    icon_code := some p.weatherId }

/-- Service construction (`__init__` of either service, cache part):
the `TTLCache` is created empty and `_load_cache_from_disk` runs, once,
exactly when `config.cache_persist` is true; each loaded record is
inserted through the cache (at construction time `now`). A load
exception propagates out of `__init__`. -/
def constructCache (maxsize : ℕ) (ttl : ℚ) (cachePersist : Bool)
    (now : ℚ) (file : CacheFile) : Except Unit TTLCacheState :=
  if cachePersist then
    match loadCacheFromDisk file with
    | .ok entries =>
      .ok (TTLCacheState.insertMany (.empty maxsize ttl)
            (entries.map fun kv => (now, kv.1, kv.2)))
    | .error e => .error e
  else .ok (.empty maxsize ttl)

/-- Python `str.isspace` characters (ASCII), as stripped by `str.strip()`
and matched by the regex's `\s`. -/
def pyIsSpace (c : Char) : Bool :=
  c = ' ' ∨ c = '\t' ∨ c = '\n' ∨ c = '\x0d' ∨ c = '\x0b' ∨ c = '\x0c'

/-- Python `str.strip()` on a character list. -/
def stripChars (cs : List Char) : List Char :=
  ((cs.dropWhile pyIsSpace).reverse.dropWhile pyIsSpace).reverse

/-- Python `str.strip()`. -/
def pyStrip (s : String) : String :=
  String.mk (stripChars s.data)

/-- Python `s.split(",")`. -/
def splitComma : List Char → List (List Char)
  | [] => [[]]
  | c :: rest =>
    if c = ',' then [] :: splitComma rest
    else match splitComma rest with
      | part :: parts => (c :: part) :: parts
      | [] => [[c]]

/-- The optional leading `[-+]?` of a numeric token: (is-negative,
remaining characters). -/
def stripSign : List Char → Bool × List Char
  | '+' :: r => (false, r)
  | '-' :: r => (true, r)
  | cs => (false, cs)

/-- The unsigned part `digits (\.digits)?` of a numeric token, consumed
whole: (integer digits, fractional digits when a fractional part is
present). -/
def decomposeCore (rest : List Char) : Option (List Char × Option (List Char)) :=
  if (rest.takeWhile Char.isDigit).isEmpty then none
  else match rest.dropWhile Char.isDigit with
    | [] => some (rest.takeWhile Char.isDigit, none)
    | '.' :: ds =>
      if ¬ ds.isEmpty ∧ ds.all Char.isDigit then
        some (rest.takeWhile Char.isDigit, some ds)
      else none
    | _ => none

/-- A signed decimal token decomposed as the regex's
`[-+]? digits (\.digits)?`: returns (negative-sign, integer digits,
fractional digits if a fractional part is present); `none` when the
token is not of that overall shape (ASCII digits, the whole token
consumed). -/
def decomposeToken (cs : List Char) : Option (Bool × List Char × Option (List Char)) :=
  match decomposeCore (stripSign cs).2 with
  | none => none
  | some x => some ((stripSign cs).1, x.1, x.2)

/-- The latitude alternative of the coordinate regex of
`LocationService._is_coordinate_format`,
`[-+]?([1-8]?\d(\.\d+)?|90(\.0+)?)`, as a whole-token matcher: one digit
or two digits led by 1–8 with an arbitrary fractional part, or `90`
with an all-zeros fractional part. -/
def latTokenOk (cs : List Char) : Bool :=
  match decomposeToken cs with
  | none => false
  | some (_, ip, frac) =>
    (ip.length = 1 ||
     (match ip with
      | [a, _] => decide ('1' ≤ a ∧ a ≤ '8')
      | _ => false)) ||
    (ip = ['9', '0'] &&
     (match frac with
      | none => true
      | some ds => ds.all (· = '0')))

/-- The longitude alternative,
`(180(\.0+)?|((1[0-7]\d)|([1-9]?\d))(\.\d+)?)`: `180` with an all-zeros
fractional part, or an integer part `1[0-7]\d`, `[1-9]\d` or `\d` with
an arbitrary fractional part. -/
def lonTokenOk (cs : List Char) : Bool :=
  match decomposeToken cs with
  | none => false
  | some (_, ip, frac) =>
    (ip = ['1', '8', '0'] &&
     (match frac with
      | none => true
      | some ds => ds.all (· = '0'))) ||
    (match ip with
     | [_] => true
     | [a, _] => decide ('1' ≤ a ∧ a ≤ '9')
     | [a, b, _] => a = '1' && decide ('0' ≤ b ∧ b ≤ '7')
     | _ => false)

/-- `LocationService._is_coordinate_format`: `re.match` of the anchored
pattern `^[-+]?(lat),\s*[-+]?(lon)$` against `location.strip()`. The
latitude group cannot match a comma, so the match splits at the first
comma; `\s*` absorbs whitespace after it. -/
def isCoordinateFormat (location : String) : Bool :=
  match ((pyStrip location).data).dropWhile (· ≠ ',') with
  | ',' :: rest =>
    latTokenOk (((pyStrip location).data).takeWhile (· ≠ ',')) &&
      lonTokenOk (rest.dropWhile pyIsSpace)
  | _ => false

/-- `LocationService._is_city_country_format`:
`location.strip().split(",")` must give exactly two parts, with the city
non-empty after stripping and the country exactly two characters after
stripping. -/
def isCityCountryFormat (location : String) : Bool :=
  match splitComma (stripChars location.data) with
  | [city, country] =>
    ¬ (stripChars city).isEmpty && ¬ (stripChars country).isEmpty &&
      (stripChars country).length = 2
  | _ => false

/-- `LocationService.validate_location_format`: coordinate format or
city,country format. -/
def validateLocationFormat (location : String) : Bool :=
  isCoordinateFormat location || isCityCountryFormat location

/-- The numeric value (most-significant digit first) of a digit list. -/
def digitsToNat : List Char → ℕ
  | [] => 0
  | c :: cs => (c.toNat - 48) * 10 ^ cs.length + digitsToNat cs

/-- The rational value of an optional fractional-digit part. -/
def fracQ : Option (List Char) → ℚ
  | none => 0
  | some ds => (digitsToNat ds : ℚ) / 10 ^ ds.length

/-- The rational value of a signed decimal token. -/
def tokenVal (cs : List Char) : Option ℚ :=
  match decomposeToken cs with
  | none => none
  | some (neg, ip, frac) =>
    some (if neg then -((digitsToNat ip : ℚ) + fracQ frac)
          else (digitsToNat ip : ℚ) + fracQ frac)

/-- The latitude/longitude values of a coordinate-shaped string, split
at the first comma like the regex match. -/
def coordValues (location : String) : Option (ℚ × ℚ) :=
  match ((pyStrip location).data).dropWhile (· ≠ ',') with
  | ',' :: rest =>
    match tokenVal (((pyStrip location).data).takeWhile (· ≠ ',')),
          tokenVal (rest.dropWhile pyIsSpace) with
    | some la, some lo => some (la, lo)
    | _, _ => none
  | _ => none

/-- Modelled from the claim's words: a string of the form `"City,CC"`
(non-empty city, exactly two-letter country code) or `"lat,lon"` with
`lat ∈ [-90, 90]` and `lon ∈ [-180, 180]`. -/
def specValidLocation (s : String) : Bool :=
  (match splitComma s.data with
   | [city, cc] =>
     ¬ city.isEmpty && cc.length = 2 && cc.all Char.isAlpha
   | _ => false) ||
  (match splitComma s.data with
   | [t1, t2] =>
     match tokenVal t1, tokenVal t2 with
     | some la, some lo =>
       decide (-90 ≤ la ∧ la ≤ 90 ∧ -180 ≤ lo ∧ lo ≤ 180)
     | _, _ => false
   | _ => false)

/-- The `OwmPayload` encoding with the mandatory `main.humidity` field
removed (for the always-present half of the invariant). -/
def OwmPayload.toJsonNoHumidity (p : OwmPayload) : Json :=
  .obj ([("weather", .arr [.obj [("main", .str p.weatherMain),
                                 ("description", .str p.weatherDescription),
                                 ("id", .num p.weatherId)]]),
         ("main", .obj [("temp", .num p.temp),
                        ("feels_like", .num p.feelsLike),
                        ("pressure", .num p.pressure)]),
         ("wind", .obj (optField "speed" p.windSpeed ++
                        optField "deg" p.windDeg)),
         ("clouds", .obj (optField "all" p.cloudsAll))]
        ++ optField "pop" p.pop
        ++ optField "visibility" p.visibility)

/-- A sample weather record (concrete instances for the cache claims). -/
def demoRecord : WeatherData :=
  { city := "London,GB", units := "metric", status := "Clouds",
    detailed_status := "Overcast clouds", temperature := 10, feels_like := 9,
    humidity := 80, wind_speed := 4, wind_direction_deg := some 180,
    precipitation_probability := none, clouds := some 90,
    visibility_distance := some 10000, pressure_hpa := 1000,
    icon_code := some 804 }

/-- A second, different record: what the provider answers now (e.g. after
a weather change), unequal to the record persisted earlier. -/
def freshRecord : WeatherData :=
  { city := "London,GB", units := "metric", status := "Clear",
    detailed_status := "Clear sky", temperature := 20, feels_like := 19,
    humidity := 60, wind_speed := 2, wind_direction_deg := some 90,
    precipitation_probability := none, clouds := some 0,
    visibility_distance := some 10000, pressure_hpa := 1020,
    icon_code := some 800 }

/-- A provider that currently answers `freshRecord` for every query. -/
def freshFetch : ℚ → String → String → WeatherData :=
  fun _ _ _ => freshRecord

/-- A service whose cache (TTL 10) holds `demoRecord` for
`"London,GB:metric"`, inserted at time 0 — e.g. loaded from the disk
snapshot at construction — with no network requests performed yet. -/
def preloadedService : ServiceState :=
  ⟨⟨100, 10, [⟨"London,GB:metric", demoRecord, 0⟩]⟩, 0⟩

lemma asOptNum_optNumJson (o : Option ℚ) : (optNumJson o).asOptNum = some o := by
  cases o <;> rfl

lemma WeatherData.ofDict_toDict (w : WeatherData) :
    WeatherData.ofDict w.toDict = some w := by
  simp [WeatherData.ofDict, WeatherData.toDict, dictGet, weatherDataFieldNames,
    decStr, decNum, decOptNum, asOptNum_optNumJson, Json.asStr, Json.asNum]

lemma loadCacheData_saveCacheData (entries : List (String × WeatherData)) :
    loadCacheData (saveCacheData entries) = Except.ok entries := by
  simp only [loadCacheData, saveCacheData]
  induction entries with
  | nil => rfl
  | cons e rest ih =>
    simp only [List.map_cons, List.mapM_cons, WeatherData.ofDict_toDict, ih]
    rfl

/-- C5: loading the cache file written by `_save_cache_to_disk` via
`_load_cache_from_disk` reproduces, for each persisted key, a record
equal to the original in every field (explicitly absent optional fields
included): for every cache state and save time, the load of the saved
JSON succeeds and returns exactly the persisted entries. -/
theorem claim_C5_save_load_roundtrip (c : TTLCacheState) (now : ℚ) :
    loadCacheFromDisk (.json (c.saveToDisk now)) = Except.ok (c.items now) :=
  loadCacheData_saveCacheData (c.items now)

/-- C2, the code evaluated at the failing configuration: a setting
(`OWM_UNITS`) defined only in the `.weather.yaml` configuration file
resolves to the built-in default (`"metric"`), not the file's value
(`"imperial"`), because the YAML source hook is dead code; the spec-side
resolution yields the file value. The CLI-over-environment and
environment-over-default combinations do hold. -/
theorem claim_C2_file_source_dead :
    resolveSetting ⟨"metric", some "imperial", none, none⟩ = "metric" ∧
    specResolveSetting ⟨"metric", some "imperial", none, none⟩ = "imperial" ∧
    resolveSetting ⟨"metric", none, some "kelvin", some "imperial"⟩ = "imperial" ∧
    resolveSetting ⟨"metric", none, some "kelvin", none⟩ = "kelvin" ∧
    resolveSetting ⟨"metric", some "imperial", some "kelvin", none⟩ = "kelvin" :=
  ⟨rfl, rfl, rfl, rfl, rfl⟩

/-- C6 counterexample: the claim says `"True"` parses to false, but
`_parse_bool` lowercases its input, so `"True"` parses to true. -/
theorem claim_C6_counterexample :
    parseBool (.str "True") = true ∧ "True" ≠ "true" := by
  constructor
  · rfl
  · decide

/-- C6 as amended: a string parses to true exactly when its (ASCII)
lowercase form is `"true"` — case-insensitively `"true"`, so `"true"`,
`"True"` and `"TRUE"` are true while `"1"`, `"yes"`, `""` and
`"anything"` are false. -/
theorem claim_C6_amended :
    (∀ s : String, parseBool (.str s) = true ↔
      s.data.map Char.toLower = "true".data) ∧
    parseBool (.str "true") = true ∧ parseBool (.str "True") = true ∧
    parseBool (.str "TRUE") = true ∧ parseBool (.str "1") = false ∧
    parseBool (.str "yes") = false ∧ parseBool (.str "") = false ∧
    parseBool (.str "anything") = false := by
  refine ⟨fun s => ?_, rfl, rfl, rfl, rfl, rfl, rfl, rfl⟩
  simp only [parseBool, pyLower, decide_eq_true_eq]
  constructor
  · intro h
    have := congrArg String.data h
    simpa using this
  · intro h
    apply String.ext
    simpa using h

/-- C7 counterexample: a syntactically valid JSON cache file whose entry
is not a well-shaped record dictionary (`{"k": {"bogus": 1}}`) makes
`WeatherData(**d)` raise an uncaught `TypeError`, so construction with
persistence enabled fails because of the cache file's contents —
refuting "construction never raises because of the cache file's
contents". -/
theorem claim_C7_counterexample :
    constructCache 100 600 true 0
      (.json (.obj [("k", .obj [("bogus", .num 1)])])) = Except.error () := rfl

/-- C7 as amended: with persistence enabled, the load runs once at
construction; a missing cache file is a cold start, and an unreadable
(I/O error) or JSON-syntax-invalid file is logged and leaves the cache
empty, none of them an error; with persistence disabled no load happens.
However, a syntactically valid JSON file whose top level is not an
object or whose entries do not match the `WeatherData` fields raises at
construction (see the counterexample). -/
theorem claim_C7_amended (maxsize : ℕ) (ttl : ℚ) (now : ℚ) (file : CacheFile) :
    constructCache maxsize ttl true now .missing =
      Except.ok (.empty maxsize ttl) ∧
    constructCache maxsize ttl true now .unreadable =
      Except.ok (.empty maxsize ttl) ∧
    constructCache maxsize ttl true now .invalidJson =
      Except.ok (.empty maxsize ttl) ∧
    constructCache maxsize ttl false now file =
      Except.ok (.empty maxsize ttl) :=
  ⟨rfl, rfl, rfl, rfl⟩

/-- C3 counterexample: a 401 response raises `APIRequestError` with an
invalid-API-key message — a `WeatherServiceError`, not a
configuration-class (`ConfigurationError`) error as the claim states. -/
theorem claim_C3_counterexample :
    fetchWeatherData "London,GB" "metric" (.response 401 .null) =
      Except.error .invalidApiKey ∧
    FetchError.invalidApiKey.excType = .apiRequestError ∧
    ExcType.apiRequestError.isSubclassOf .configurationError = false := by
  refine ⟨rfl, rfl, ?_⟩
  decide

/-- C3 as amended: in the async fetch path 404 raises
`LocationNotFoundError`, 401 raises the generic `APIRequestError`
(invalid API key) — not a configuration-class error — 429 raises
`RateLimitError`, any other non-200 status raises `APIRequestError`
carrying the status code, and a timeout or connection failure raises
`NetworkError`, a class distinct from all of the above; the sync path
distinguishes only PyOWM's `NotFoundError` (`LocationNotFoundError`)
and maps every other PyOWM error to `APIRequestError`. -/
theorem claim_C3_amended (loc units : String) (body : Json) (status : ℕ) :
    fetchWeatherData loc units (.response 404 body) =
      Except.error .locationNotFound ∧
    fetchWeatherData loc units (.response 401 body) =
      Except.error .invalidApiKey ∧
    FetchError.invalidApiKey.excType = .apiRequestError ∧
    ExcType.apiRequestError.isSubclassOf .configurationError = false ∧
    fetchWeatherData loc units (.response 429 body) =
      Except.error .rateLimited ∧
    (status ≠ 200 → status ≠ 404 → status ≠ 401 → status ≠ 429 →
      fetchWeatherData loc units (.response status body) =
        Except.error (.requestFailed status)) ∧
    fetchWeatherData loc units .timeout = Except.error .networkTimeout ∧
    fetchWeatherData loc units .connectionError =
      Except.error .networkConnection ∧
    FetchError.networkTimeout.excType = .networkError ∧
    FetchError.networkConnection.excType = .networkError ∧
    ExcType.networkError ≠ .locationNotFoundError ∧
    ExcType.networkError ≠ .apiRequestError ∧
    ExcType.networkError ≠ .rateLimitError ∧
    ExcType.networkError ≠ .dataParsingError ∧
    syncFetchErrorClass .notFoundError = some .locationNotFoundError ∧
    syncFetchErrorClass .otherPyowmError = some .apiRequestError := by
  refine ⟨rfl, rfl, rfl, by decide, rfl, ?_, rfl, rfl, rfl, rfl,
    by decide, by decide, by decide, by decide, rfl, rfl⟩
  intro h200 h404 h401 h429
  simp only [fetchWeatherData, if_neg h404, if_neg h401, if_neg h429, ne_eq,
    h200, not_false_eq_true, if_pos]

/-- C1 counterexample: for a payload that omits the whole `wind` and
`clouds` objects (and `pop`/`visibility`), the parsed record carries
wind speed `0` and cloud cover `0` — the zero default the claim rules
out — rather than recording those fields as absent (wind speed is not
even an optional field of the record). -/
theorem claim_C1_counterexample :
    parseWeatherData "London,GB"
      (.obj [("weather", .arr [.obj [("main", .str "Clear"),
                                     ("description", .str "clear sky"),
                                     ("id", .num 800)]]),
             ("main", .obj [("temp", .num 20), ("feels_like", .num 21),
                            ("humidity", .num 65), ("pressure", .num 1013)])])
      "metric" =
      Except.ok
        { city := "London,GB", units := "metric", status := "Clear",
          detailed_status := "Clear sky", temperature := 20, feels_like := 21,
          humidity := 65, wind_speed := 0, wind_direction_deg := none,
          precipitation_probability := none, clouds := some 0,
          visibility_distance := none, pressure_hpa := 1013,
          icon_code := some 800 } := by
  have h20 : pyRound 20 1 = 20 := by norm_num [pyRound, pyRoundInt, Int.even_iff]
  have h21 : pyRound 21 1 = 21 := by norm_num [pyRound, pyRoundInt, Int.even_iff]
  have h0 : pyRound 0 2 = 0 := by norm_num [pyRound, pyRoundInt, Int.even_iff]
  have key : parseWeatherData "London,GB"
      (.obj [("weather", .arr [.obj [("main", .str "Clear"),
                                     ("description", .str "clear sky"),
                                     ("id", .num 800)]]),
             ("main", .obj [("temp", .num 20), ("feels_like", .num 21),
                            ("humidity", .num 65), ("pressure", .num 1013)])])
      "metric" =
      Except.ok
        { city := "London,GB", units := "metric", status := "Clear",
          detailed_status := pyCapitalize "clear sky",
          temperature := pyRound 20 1, feels_like := pyRound 21 1,
          humidity := 65, wind_speed := pyRound 0 2,
          wind_direction_deg := none, precipitation_probability := none,
          clouds := some 0, visibility_distance := none, pressure_hpa := 1013,
          icon_code := some 800 } := rfl
  rw [key, h20, h21, h0]
  rfl

/-- C1 as amended: for every provider payload, omitted `wind.deg`,
`pop` and `visibility` propagate into the record as explicit absence,
but omitted `wind.speed` and `clouds.all` are recorded as the value `0`
(and cloud cover is therefore always present in the record); humidity
and pressure are mandatory — a payload whose `main` object lacks
`humidity` fails with `DataParsingError`. -/
theorem claim_C1_amended (p : OwmPayload) (loc units : String) :
    parseWeatherData loc p.toJson units =
      Except.ok (p.parsedRecord loc units) ∧
    parseWeatherData loc p.toJsonNoHumidity units =
      Except.error .dataParsing := by
  obtain ⟨wm, wd, wid, t, fl, h, pr, ws, deg, pp, ca, vis⟩ := p
  constructor
  · cases ws <;> cases deg <;> cases pp <;> cases ca <;> cases vis <;> rfl
  · cases ws <;> cases deg <;> cases pp <;> cases ca <;> cases vis <;> rfl

lemma TTLCacheState.insert_maxsize (c : TTLCacheState) (now : ℚ) (k : String)
    (v : WeatherData) : (c.insert now k v).maxsize = c.maxsize := by
  unfold TTLCacheState.insert
  split <;> rfl

lemma TTLCacheState.insert_ttl (c : TTLCacheState) (now : ℚ) (k : String)
    (v : WeatherData) : (c.insert now k v).ttl = c.ttl := by
  unfold TTLCacheState.insert
  split <;> rfl

lemma TTLCacheState.insert_length_le (c : TTLCacheState) (now : ℚ) (k : String)
    (v : WeatherData) (hmax : 1 ≤ c.maxsize)
    (h : c.entries.length ≤ c.maxsize) :
    (c.insert now k v).entries.length ≤ c.maxsize := by
  have hes : (c.entries.filter (CacheEntry.live c.ttl now)).length ≤
      c.entries.length := List.length_filter_le _ _
  by_cases hany :
      (c.entries.filter (CacheEntry.live c.ttl now)).any (fun e => e.key = k)
  · have hlt : ((c.entries.filter (CacheEntry.live c.ttl now)).filter
        (fun e => ¬ e.key = k)).length <
        (c.entries.filter (CacheEntry.live c.ttl now)).length := by
      rw [List.length_filter_lt_length_iff_exists]
      obtain ⟨e, he, hk⟩ := List.any_eq_true.mp hany
      exact ⟨e, he, by simpa using hk⟩
    simp only [TTLCacheState.insert, hany, if_true, List.length_append,
      List.length_singleton]
    omega
  · simp only [TTLCacheState.insert, hany, if_false, Bool.false_eq_true,
      List.length_append, List.length_singleton, List.length_drop]
    omega

lemma TTLCacheState.insertMany_length_le (c : TTLCacheState)
    (ops : List (ℚ × String × WeatherData)) (hmax : 1 ≤ c.maxsize)
    (h : c.entries.length ≤ c.maxsize) :
    (c.insertMany ops).entries.length ≤ c.maxsize := by
  induction ops generalizing c with
  | nil => exact h
  | cons op rest ih =>
    have h1 := c.insert_length_le op.1 op.2.1 op.2.2 hmax h
    have hm := c.insert_maxsize op.1 op.2.1 op.2.2
    have := ih (c.insert op.1 op.2.1 op.2.2) (by omega) (by omega)
    simpa [TTLCacheState.insertMany, hm] using this

/-- C8: the cache never holds more than its configured maximum of 100
entries across any sequence of inserts from the fresh cache both services
construct; and when 100 live entries are resident and a new (101st)
distinct key is inserted, exactly one entry — the oldest-inserted — is
evicted before the new one is admitted, leaving exactly 100 entries. -/
theorem claim_C8_capacity_bound :
    (∀ (ttl : ℚ) (ops : List (ℚ × String × WeatherData)),
      ((TTLCacheState.empty 100 ttl).insertMany ops).entries.length ≤ 100) ∧
    (∀ (c : TTLCacheState) (now : ℚ) (k : String) (v : WeatherData),
      c.maxsize = 100 → c.entries.length = 100 →
      (∀ e ∈ c.entries, e.live c.ttl now = true) →
      (∀ e ∈ c.entries, e.key ≠ k) →
      (c.insert now k v).entries = c.entries.drop 1 ++ [⟨k, v, now⟩] ∧
      (c.insert now k v).entries.length = 100) := by
  constructor
  · intro ttl ops
    have := TTLCacheState.insertMany_length_le (.empty 100 ttl) ops
      (by norm_num [TTLCacheState.empty]) (by simp [TTLCacheState.empty])
    simpa [TTLCacheState.empty] using this
  · intro c now k v hmax hlen hlive hfresh
    have hfilter : c.entries.filter (CacheEntry.live c.ttl now) = c.entries :=
      List.filter_eq_self.mpr hlive
    have hany : (c.entries.any fun e => e.key = k) = false := by
      rw [List.any_eq_false]
      intro e he
      simpa using hfresh e he
    have heq : (c.insert now k v).entries =
        c.entries.drop 1 ++ [⟨k, v, now⟩] := by
      simp only [TTLCacheState.insert, hfilter, hany, Bool.false_eq_true,
        if_false, hlen, hmax]
    refine ⟨heq, ?_⟩
    rw [heq]
    simp only [List.length_append, List.length_singleton, List.length_drop,
      hlen]

lemma TTLCacheState.no_live_key_of_lookup_none (c : TTLCacheState)
    (now1 : ℚ) (k : String)
    (hnd : (c.entries.map CacheEntry.key).Nodup)
    (hmiss : c.lookup now1 k = none) :
    ∀ e ∈ c.entries.filter (CacheEntry.live c.ttl now1), e.key ≠ k := by
  intro e he hk
  have hmem := List.mem_of_mem_filter he
  have helive : CacheEntry.live c.ttl now1 e = true := List.of_mem_filter he
  unfold TTLCacheState.lookup at hmiss
  cases hf : c.entries.find? (fun e => e.key = k) with
  | none =>
    have := List.find?_eq_none.mp hf e hmem
    simp [hk] at this
  | some e0 =>
    rw [hf] at hmiss
    have hk0 : e0.key = k := by
      have := List.find?_some hf
      simpa using this
    have hmem0 : e0 ∈ c.entries := List.mem_of_find?_eq_some hf
    have he0live : ¬ CacheEntry.live c.ttl now1 e0 = true := by
      intro hlv
      have hmiss' : (if CacheEntry.live c.ttl now1 e0 = true
          then some e0.val else none) = none := hmiss
      rw [if_pos hlv] at hmiss'
      cases hmiss'
    have : e = e0 :=
      List.inj_on_of_nodup_map hnd hmem hmem0 (by rw [hk, hk0])
    rw [this] at helive
    exact he0live helive

lemma TTLCacheState.lookup_insert_fresh (c : TTLCacheState) (now1 now2 : ℚ)
    (k : String) (v : WeatherData)
    (hnd : (c.entries.map CacheEntry.key).Nodup)
    (hmiss : c.lookup now1 k = none)
    (hlive : now2 < now1 + c.ttl) :
    (c.insert now1 k v).lookup now2 k = some v := by
  have hkeys := c.no_live_key_of_lookup_none now1 k hnd hmiss
  have hany : ((c.entries.filter (CacheEntry.live c.ttl now1)).any
      (fun e => e.key = k)) = false := by
    rw [List.any_eq_false]
    intro e he
    simpa using hkeys e he
  have hfindpre : ((c.entries.filter (CacheEntry.live c.ttl now1)).drop
      ((c.entries.filter (CacheEntry.live c.ttl now1)).length + 1
        - c.maxsize)).find? (fun e => e.key = k) = none := by
    rw [List.find?_eq_none]
    intro e he
    have : e ∈ c.entries.filter (CacheEntry.live c.ttl now1) :=
      List.drop_subset _ _ he
    simpa using hkeys e this
  unfold TTLCacheState.insert
  rw [hany]
  simp only [Bool.false_eq_true, if_false, TTLCacheState.lookup,
    List.find?_append, hfindpre, Option.none_orElse, List.find?_cons,
    List.find?_nil]
  simp [CacheEntry.live, hlive]

/-- C4 counterexample: with TTL 10, a service whose cache already holds a
record for `"London,GB:metric"` inserted at time 0 (no network requests
yet). Two consecutive calls at times 9 and 10 are within the TTL window
of each other (one second apart), yet the first returns the cached
record, the entry expires in between, and the second call fetches from
the network and returns a different record: the calls are not equal and
the second is not answered from cache with zero network activity. -/
theorem claim_C4_counterexample :
    (0 : ℚ) ≤ 10 - 9 ∧ (10 : ℚ) - 9 < 10 ∧
    (getWeather freshFetch 9 "London,GB" "metric" preloadedService).1 =
      demoRecord ∧
    (getWeather freshFetch 9 "London,GB" "metric" preloadedService).2 =
      preloadedService ∧
    (getWeather freshFetch 10 "London,GB" "metric"
      (getWeather freshFetch 9 "London,GB" "metric" preloadedService).2).1 =
      freshRecord ∧
    demoRecord ≠ freshRecord ∧
    (getWeather freshFetch 10 "London,GB" "metric"
      (getWeather freshFetch 9 "London,GB" "metric"
        preloadedService).2).2.fetchCount = 1 := by
  have hkey : ("London,GB" ++ ":" ++ "metric" : String) = "London,GB:metric" :=
    rfl
  have h9 : (getWeather freshFetch 9 "London,GB" "metric" preloadedService) =
      (demoRecord, preloadedService) := by
    norm_num [getWeather, preloadedService, TTLCacheState.lookup, cacheKey,
      CacheEntry.live, List.find?_cons, hkey]
  have h10 : (getWeather freshFetch 10 "London,GB" "metric"
      preloadedService).2.fetchCount = 1 ∧
      (getWeather freshFetch 10 "London,GB" "metric"
        preloadedService).1 = freshRecord := by
    norm_num [getWeather, preloadedService, TTLCacheState.lookup, cacheKey,
      CacheEntry.live, List.find?_cons, freshFetch, hkey]
  refine ⟨by norm_num, by norm_num, ?_, ?_, ?_, ?_, ?_⟩
  · rw [h9]
  · rw [h9]
  · rw [h9]
    exact h10.2
  · decide
  · rw [h9]
    exact h10.1

/-- C4 as amended: for two consecutive `get_weather(L, U)` calls within
the TTL window of each other (cache keys unique, as every reachable
cache state has them), at most one network request happens across the
two calls; moreover, whenever the first call was a cache miss (in
particular on a fresh service), the second call returns the identical
record from cache with zero network activity and no state change. If
instead the first call hit a cache entry that expires between the calls,
the second call does fetch — which is what refutes the claim as
stated. -/
theorem claim_C4_amended (fetch : ℚ → String → String → WeatherData)
    (st : ServiceState) (now1 now2 : ℚ) (loc units : String)
    (hnd : (st.cache.entries.map CacheEntry.key).Nodup)
    (h2 : now2 < now1 + st.cache.ttl) :
    ((getWeather fetch now2 loc units
        (getWeather fetch now1 loc units st).2).2.fetchCount ≤
      st.fetchCount + 1) ∧
    (st.cache.lookup now1 (cacheKey loc units) = none →
      (getWeather fetch now2 loc units
          (getWeather fetch now1 loc units st).2).1 =
        (getWeather fetch now1 loc units st).1 ∧
      (getWeather fetch now2 loc units
          (getWeather fetch now1 loc units st).2).2 =
        (getWeather fetch now1 loc units st).2) := by
  cases hl : st.cache.lookup now1 (cacheKey loc units) with
  | some w =>
    have h1 : getWeather fetch now1 loc units st = (w, st) := by
      simp [getWeather, hl]
    rw [h1]
    constructor
    · cases hl2 : st.cache.lookup now2 (cacheKey loc units) with
      | some w2 => simp [getWeather, hl2]
      | none => simp [getWeather, hl2]
    · intro hcontra
      simp [hl] at hcontra
  | none =>
    have h1 : getWeather fetch now1 loc units st =
        (fetch now1 loc units,
          ⟨st.cache.insert now1 (cacheKey loc units) (fetch now1 loc units),
            st.fetchCount + 1⟩) := by
      simp [getWeather, hl]
    have hhit : (st.cache.insert now1 (cacheKey loc units)
        (fetch now1 loc units)).lookup now2 (cacheKey loc units) =
        some (fetch now1 loc units) :=
      st.cache.lookup_insert_fresh now1 now2 (cacheKey loc units)
        (fetch now1 loc units) hnd hl h2
    rw [h1]
    constructor
    · simp [getWeather, hhit]
    · intro _
      simp [getWeather, hhit]

/-- C4 witness: concrete instantiation of the amended theorem at a fresh
service (empty cache, TTL 10, calls at times 0 and 5): at most one
network request across the two calls. -/
theorem claim_C4_witness :
    (getWeather freshFetch 5 "London,GB" "metric"
      (getWeather freshFetch 0 "London,GB" "metric"
        ⟨.empty 100 10, 0⟩).2).2.fetchCount ≤ 0 + 1 :=
  (claim_C4_amended freshFetch ⟨.empty 100 10, 0⟩ 0 5 "London,GB" "metric"
    (by simp [TTLCacheState.empty]) (by norm_num [TTLCacheState.empty])).1

lemma cacheKey_left_injective (l1 l2 u : String) (hne : l1 ≠ l2) :
    cacheKey l1 u ≠ cacheKey l2 u := by
  intro h
  apply hne
  have hd := congrArg String.data h
  simp only [cacheKey, String.data_append] at hd
  have h1 := List.append_cancel_right hd
  have h2 := List.append_cancel_right h1
  exact String.ext h2

/-- C10: both services derive the cache key as the verbatim location
concatenated with `":"` and the units — no trimming or case folding —
so two locations differing only in whitespace or case give distinct
keys, and on a fresh service two `get_weather` calls with such locations
each perform their own network fetch and occupy distinct cache
entries. -/
theorem claim_C10_verbatim_cache_key (fetch : ℚ → String → String → WeatherData)
    (ttl : ℚ) (now1 now2 : ℚ) (l1 l2 u : String)
    (hne : l1 ≠ l2) (h2 : now2 < now1 + ttl) :
    cacheKey l1 u = l1 ++ ":" ++ u ∧
    cacheKey l1 u ≠ cacheKey l2 u ∧
    (getWeather fetch now2 l2 u
      (getWeather fetch now1 l1 u ⟨.empty 100 ttl, 0⟩).2).2.fetchCount = 2 ∧
    (getWeather fetch now2 l2 u
        (getWeather fetch now1 l1 u ⟨.empty 100 ttl, 0⟩).2).2.cache.entries.map
      CacheEntry.key = [cacheKey l1 u, cacheKey l2 u] := by
  have hkk := cacheKey_left_injective l1 l2 u hne
  have h1 : getWeather fetch now1 l1 u ⟨.empty 100 ttl, 0⟩ =
      (fetch now1 l1 u,
        ⟨⟨100, ttl, [⟨cacheKey l1 u, fetch now1 l1 u, now1⟩]⟩, 1⟩) := by
    simp [getWeather, TTLCacheState.lookup, TTLCacheState.empty,
      TTLCacheState.insert]
  have hstep : getWeather fetch now2 l2 u
      (⟨⟨100, ttl, [⟨cacheKey l1 u, fetch now1 l1 u, now1⟩]⟩, 1⟩ :
        ServiceState) =
      (fetch now2 l2 u,
        ⟨⟨100, ttl, [⟨cacheKey l1 u, fetch now1 l1 u, now1⟩,
          ⟨cacheKey l2 u, fetch now2 l2 u, now2⟩]⟩, 2⟩) := by
    simp [getWeather, TTLCacheState.lookup, TTLCacheState.insert,
      CacheEntry.live, List.find?_cons, hkk, Ne.symm hkk, h2]
  refine ⟨rfl, hkk, ?_, ?_⟩
  · rw [h1, hstep]
  · rw [h1, hstep]
    rfl

/-- C10 witness: `" London,GB"` (leading whitespace) and `"London,GB"`
give two fetches on a fresh service with TTL 10 and calls at times 0
and 1. -/
theorem claim_C10_witness :
    (getWeather freshFetch 1 "London,GB" "metric"
      (getWeather freshFetch 0 " London,GB" "metric"
        ⟨.empty 100 10, 0⟩).2).2.fetchCount = 2 :=
  (claim_C10_verbatim_cache_key freshFetch 10 0 1 " London,GB" "London,GB"
    "metric" (by decide) (by norm_num)).2.2.1

lemma char_isDigit_bounds (c : Char) (h : c.isDigit = true) :
    48 ≤ c.toNat ∧ c.toNat ≤ 57 := by
  simp only [Char.isDigit, Bool.and_eq_true, decide_eq_true_eq] at h
  exact h

lemma all_takeWhile_self (p : α → Bool) (l : List α) :
    (l.takeWhile p).all p = true := by
  induction l with
  | nil => rfl
  | cons a tl ih =>
    by_cases hp : p a
    · simp [List.takeWhile_cons, hp, ih]
    · simp [List.takeWhile_cons, hp]

lemma dropWhile_head_not (p : α → Bool) (l : List α) (c : α) (rest : List α)
    (h : l.dropWhile p = c :: rest) : p c = false := by
  induction l with
  | nil => cases h
  | cons a tl ih =>
    by_cases hp : p a
    · rw [List.dropWhile_cons_of_pos hp] at h
      exact ih h
    · rw [List.dropWhile_cons_of_neg hp] at h
      cases h
      simpa using hp

lemma digitsToNat_lt (ds : List Char) (h : ds.all Char.isDigit = true) :
    digitsToNat ds < 10 ^ ds.length := by
  induction ds with
  | nil => simp [digitsToNat]
  | cons c cs ih =>
    simp only [List.all_cons, Bool.and_eq_true] at h
    have hc := char_isDigit_bounds c h.1
    have hcs := ih h.2
    have h9 : c.toNat - 48 ≤ 9 := by omega
    have h1 : (c.toNat - 48) * 10 ^ cs.length ≤ 9 * 10 ^ cs.length :=
      Nat.mul_le_mul_right _ h9
    simp only [digitsToNat, List.length_cons, pow_succ]
    linarith

lemma digitsToNat_zeros (ds : List Char) (h : ds.all (· = '0') = true) :
    digitsToNat ds = 0 := by
  induction ds with
  | nil => rfl
  | cons c cs ih =>
    simp only [List.all_cons, Bool.and_eq_true, decide_eq_true_eq] at h
    rw [h.1]
    simp [digitsToNat, ih h.2]

lemma decomposeCore_spec (rest : List Char) (ip : List Char)
    (frac : Option (List Char)) (h : decomposeCore rest = some (ip, frac)) :
    ip.all Char.isDigit = true ∧ ip ≠ [] ∧
      ∀ ds, frac = some ds → ds.all Char.isDigit = true := by
  unfold decomposeCore at h
  by_cases he : (rest.takeWhile Char.isDigit).isEmpty
  · rw [if_pos he] at h
    cases h
  · rw [if_neg he] at h
    have hne : rest.takeWhile Char.isDigit ≠ [] := by
      simpa [List.isEmpty_iff] using he
    split at h
    · simp only [Option.some.injEq, Prod.mk.injEq] at h
      obtain ⟨hip, hfrac⟩ := h
      subst hip
      subst hfrac
      exact ⟨all_takeWhile_self _ _, hne, fun ds hds => by cases hds⟩
    · split at h
      · rename_i ds heq hcond
        simp only [Option.some.injEq, Prod.mk.injEq] at h
        obtain ⟨hip, hfrac⟩ := h
        subst hip
        subst hfrac
        refine ⟨all_takeWhile_self _ _, hne, fun ds2 hds2 => ?_⟩
        injection hds2 with hds2
        subst hds2
        exact hcond.2
      · cases h
    · cases h

lemma decomposeToken_spec (cs : List Char) (neg : Bool) (ip : List Char)
    (frac : Option (List Char))
    (h : decomposeToken cs = some (neg, ip, frac)) :
    ip.all Char.isDigit = true ∧ ip ≠ [] ∧
      ∀ ds, frac = some ds → ds.all Char.isDigit = true := by
  unfold decomposeToken at h
  cases hc : decomposeCore (stripSign cs).2 with
  | none =>
    rw [hc] at h
    cases h
  | some x =>
    rw [hc] at h
    simp only [Option.some.injEq, Prod.mk.injEq] at h
    obtain ⟨-, hip, hfrac⟩ := h
    subst hip
    subst hfrac
    exact decomposeCore_spec _ _ _ hc

lemma fracQ_nonneg (frac : Option (List Char)) : 0 ≤ fracQ frac := by
  cases frac with
  | none => simp [fracQ]
  | some ds =>
    simp only [fracQ]
    positivity

lemma fracQ_lt_one (frac : Option (List Char))
    (h : ∀ ds, frac = some ds → ds.all Char.isDigit = true) :
    fracQ frac < 1 := by
  cases frac with
  | none => norm_num [fracQ]
  | some ds =>
    simp only [fracQ]
    rw [div_lt_one (by positivity)]
    exact_mod_cast digitsToNat_lt ds (h ds rfl)

lemma fracQ_zeros (ds : List Char) (h : ds.all (· = '0') = true) :
    fracQ (some ds) = 0 := by
  simp [fracQ, digitsToNat_zeros ds h]

lemma latTokenOk_val (cs : List Char) (h : latTokenOk cs = true) :
    ∃ q, tokenVal cs = some q ∧ -90 ≤ q ∧ q ≤ 90 := by
  unfold latTokenOk at h
  cases hdec : decomposeToken cs with
  | none =>
    rw [hdec] at h
    cases h
  | some x =>
    obtain ⟨neg, ip, frac⟩ := x
    rw [hdec] at h
    obtain ⟨hip, hipne, hfr⟩ := decomposeToken_spec cs neg ip frac hdec
    have hval : tokenVal cs =
        some (if neg then -((digitsToNat ip : ℚ) + fracQ frac)
              else (digitsToNat ip : ℚ) + fracQ frac) := by
      simp [tokenVal, hdec]
    have hlb : (0 : ℚ) ≤ (digitsToNat ip : ℚ) + fracQ frac := by
      have := fracQ_nonneg frac
      positivity
    have hfq1 : fracQ frac < 1 := fracQ_lt_one frac hfr
    have hub : (digitsToNat ip : ℚ) + fracQ frac ≤ 90 := by
      simp only [Bool.or_eq_true, Bool.and_eq_true, decide_eq_true_eq] at h
      rcases h with (hlen | htwo) | ⟨h90, hz⟩
      · match ip, hlen with
        | [a], _ =>
          simp only [List.all_cons, List.all_nil, Bool.and_eq_true] at hip
          have ha := char_isDigit_bounds a hip.1
          have h9 : digitsToNat [a] ≤ 9 := by
            simp only [digitsToNat, List.length_nil, pow_zero, mul_one]
            omega
          have h9q : (digitsToNat [a] : ℚ) ≤ 9 := by exact_mod_cast h9
          linarith
      · match ip, htwo with
        | [a, b], htwo =>
          simp only [decide_eq_true_eq] at htwo
          simp only [List.all_cons, List.all_nil, Bool.and_eq_true] at hip
          have ha := char_isDigit_bounds a hip.1
          have hb := char_isDigit_bounds b hip.2.1
          have ha8 : a.toNat ≤ 56 := by
            have := htwo.2
            rw [Char.le_def] at this
            exact this
          have h89 : digitsToNat [a, b] ≤ 89 := by
            simp only [digitsToNat, List.length_cons, List.length_nil,
              pow_zero, pow_succ, pow_zero, one_mul, mul_one]
            omega
          have h89q : (digitsToNat [a, b] : ℚ) ≤ 89 := by exact_mod_cast h89
          linarith
      · subst h90
        have h90v : digitsToNat ['9', '0'] = 90 := by decide
        have hz0 : fracQ frac = 0 := by
          cases frac with
          | none => rfl
          | some ds => exact fracQ_zeros ds hz
        rw [h90v, hz0]
        norm_num
    refine ⟨_, hval, ?_, ?_⟩
    · cases neg <;> simp <;> linarith
    · cases neg <;> simp <;> linarith

lemma lonTokenOk_val (cs : List Char) (h : lonTokenOk cs = true) :
    ∃ q, tokenVal cs = some q ∧ -180 ≤ q ∧ q ≤ 180 := by
  unfold lonTokenOk at h
  cases hdec : decomposeToken cs with
  | none =>
    rw [hdec] at h
    cases h
  | some x =>
    obtain ⟨neg, ip, frac⟩ := x
    rw [hdec] at h
    obtain ⟨hip, hipne, hfr⟩ := decomposeToken_spec cs neg ip frac hdec
    have hval : tokenVal cs =
        some (if neg then -((digitsToNat ip : ℚ) + fracQ frac)
              else (digitsToNat ip : ℚ) + fracQ frac) := by
      simp [tokenVal, hdec]
    have hlb : (0 : ℚ) ≤ (digitsToNat ip : ℚ) + fracQ frac := by
      have := fracQ_nonneg frac
      positivity
    have hfq1 : fracQ frac < 1 := fracQ_lt_one frac hfr
    have hub : (digitsToNat ip : ℚ) + fracQ frac ≤ 180 := by
      simp only [Bool.or_eq_true, Bool.and_eq_true, decide_eq_true_eq] at h
      rcases h with ⟨h180, hz⟩ | halt
      · subst h180
        have h180v : digitsToNat ['1', '8', '0'] = 180 := by decide
        have hz0 : fracQ frac = 0 := by
          cases frac with
          | none => rfl
          | some ds => exact fracQ_zeros ds hz
        rw [h180v, hz0]
        norm_num
      · match ip, halt with
        | [a], _ =>
          simp only [List.all_cons, List.all_nil, Bool.and_eq_true] at hip
          have ha := char_isDigit_bounds a hip.1
          have h9 : digitsToNat [a] ≤ 9 := by
            simp only [digitsToNat, List.length_nil, pow_zero, mul_one]
            omega
          have h9q : (digitsToNat [a] : ℚ) ≤ 9 := by exact_mod_cast h9
          linarith
        | [a, b], halt =>
          simp only [List.all_cons, List.all_nil, Bool.and_eq_true] at hip
          have ha := char_isDigit_bounds a hip.1
          have hb := char_isDigit_bounds b hip.2.1
          have h99 : digitsToNat [a, b] ≤ 99 := by
            simp only [digitsToNat, List.length_cons, List.length_nil,
              pow_zero, pow_succ, one_mul, mul_one]
            omega
          have h99q : (digitsToNat [a, b] : ℚ) ≤ 99 := by exact_mod_cast h99
          linarith
        | [a, b, c], halt =>
          simp only [Bool.and_eq_true, decide_eq_true_eq] at halt
          obtain ⟨ha1, hb07⟩ := halt
          simp only [List.all_cons, List.all_nil, Bool.and_eq_true] at hip
          have hc := char_isDigit_bounds c hip.2.2.1
          have hb := char_isDigit_bounds b hip.2.1
          have ha1n : a.toNat = 49 := by
            have : a = '1' := by simpa using ha1
            rw [this]
            rfl
          have hb7 : b.toNat ≤ 55 := by
            have := hb07.2
            rw [Char.le_def] at this
            exact this
          have h179 : digitsToNat [a, b, c] ≤ 179 := by
            simp only [digitsToNat, List.length_cons, List.length_nil,
              pow_zero, pow_succ, one_mul, mul_one]
            omega
          have h179q : (digitsToNat [a, b, c] : ℚ) ≤ 179 := by
            exact_mod_cast h179
          linarith
    refine ⟨_, hval, ?_, ?_⟩
    · cases neg <;> simp <;> linarith
    · cases neg <;> simp <;> linarith

lemma isCoordinateFormat_values (s : String) (h : isCoordinateFormat s = true) :
    ∃ la lo, coordValues s = some (la, lo) ∧
      -90 ≤ la ∧ la ≤ 90 ∧ -180 ≤ lo ∧ lo ≤ 180 := by
  unfold isCoordinateFormat at h
  cases hd : ((pyStrip s).data).dropWhile (· ≠ ',') with
  | nil =>
    rw [hd] at h
    simp at h
  | cons c rest =>
    have hc : c = ',' := by
      have := dropWhile_head_not _ _ _ _ hd
      simpa using this
    subst hc
    rw [hd] at h
    have h' : (latTokenOk (((pyStrip s).data).takeWhile (· ≠ ',')) &&
        lonTokenOk (rest.dropWhile pyIsSpace)) = true := h
    rw [Bool.and_eq_true] at h'
    obtain ⟨la, hva, ha1, ha2⟩ := latTokenOk_val _ h'.1
    obtain ⟨lo, hvo, ho1, ho2⟩ := lonTokenOk_val _ h'.2
    refine ⟨la, lo, ?_, ha1, ha2, ho1, ho2⟩
    unfold coordValues
    simp only [hd, hva, hvo]

/-- C9 counterexample: `"a,12"` — a country token of two characters that
are not letters — is accepted by `validate_location_format` (the code
checks only the token's length), while the claim's grammar (`City,CC`
with a two-letter country code, or in-range numeric coordinates) rejects
it. -/
theorem claim_C9_counterexample :
    validateLocationFormat "a,12" = true ∧ specValidLocation "a,12" = false := by
  constructor
  · decide
  · decide

/-- C9 as amended: `validate_location_format` returns true exactly for
the city,country shape with a two-character (not necessarily
alphabetic) country token after trimming, or for a coordinate pair in
the regex's decimal grammar — and every accepted coordinate pair indeed
has latitude in [-90, 90] and longitude in [-180, 180]; the claim's
concrete examples all behave as stated. -/
theorem claim_C9_amended :
    (∀ s : String, validateLocationFormat s = true ↔
      (isCityCountryFormat s = true ∨
       (isCoordinateFormat s = true ∧
        ∃ la lo, coordValues s = some (la, lo) ∧
          -90 ≤ la ∧ la ≤ 90 ∧ -180 ≤ lo ∧ lo ≤ 180))) ∧
    validateLocationFormat "London,GB" = true ∧
    validateLocationFormat "51.5074,-0.1278" = true ∧
    validateLocationFormat "London" = false ∧
    validateLocationFormat "London,GBR" = false ∧
    validateLocationFormat "91.0,0.0" = false := by
  refine ⟨fun s => ?_, by decide, by decide, by decide, by decide, by decide⟩
  constructor
  · intro h
    rw [validateLocationFormat, Bool.or_eq_true] at h
    rcases h with hcoord | hcity
    · exact Or.inr ⟨hcoord, isCoordinateFormat_values s hcoord⟩
    · exact Or.inl hcity
  · intro h
    rw [validateLocationFormat, Bool.or_eq_true]
    rcases h with hcity | ⟨hcoord, -⟩
    · exact Or.inr hcity
    · exact Or.inl hcoord

end WeatherApp
